import Mathlib

/-!
# Candidate Signal Analysis & Score Calibration Core: a verification development

Shallow embedding of the deterministic scoring/calibration/signal-analysis
logic of the interview-assistant application, together with proofs about it.

Embedded source functions:
* `calibrateScores` / `updateQualificationStatus`
  (src/app/api/analyze-interview/route.ts)
* `smoothEmotionalJourney`, `detectEmotionalShifts`
  (src/lib/ai/sentimentAnalysis.ts)
* `mockBiasDetection`, `getGenderNeutralSuggestion`, `getAgeFairSuggestion`
  (src/lib/ai/biasDetection.ts)

JavaScript numbers are modelled as rationals (`ℚ`); `Math.round x` is
`⌊x + 1/2⌋` (JavaScript rounds halves toward +∞); `Math.random`-derived
jitter values are passed as explicit integer parameters so that the
dependence of the code on the random draw is visible in the model.
-/

namespace HJ

/-- JavaScript `Math.round`: round half toward +∞, i.e. `⌊x + 1/2⌋`. -/
def jsRound (x : ℚ) : ℤ := ⌊x + 1/2⌋

/-- JavaScript `Math.abs`. -/
def jsAbs (x : ℚ) : ℚ := if x < 0 then -x else x

/-! ## Score calibration (src/app/api/analyze-interview/route.ts) -/

/-- `const calibrationStrength = 0.15` (line 491). -/
def calibrationStrength : ℚ := 15/100

/-- The three-tier compression applied to one category score before the
random jitter and the clamp (lines 500–513).  Scores at or below 65 are
passed through without rounding. -/
def calibrateCategoryPre (s : ℚ) : ℚ :=
  if 85 < s then (jsRound (s - (s - 85) * (7/10) - 2) : ℚ)
  else if 75 < s then (jsRound (s - (s - 75) * calibrationStrength * 2) : ℚ)
  else if 65 < s then (jsRound (s - (s - 65) * calibrationStrength) : ℚ)
  else s

/-- `Math.max(30, Math.min(95, x))` (line 519). -/
def clamp3095 (x : ℚ) : ℚ := max 30 (min 95 x)

/-- One category score through the whole per-category calibration
(lines 500–519): three-tier compression, then the random adjustment
`Math.floor(Math.random() * 3) - 1` — passed here as the explicit jitter
draw `j ∈ {-1, 0, 1}` — then the clamp to [30, 95]. -/
def calibrateCategory (s : ℚ) (j : ℤ) : ℚ :=
  clamp3095 (calibrateCategoryPre s + j)

/-- The compression applied to the recomputed overall score
(lines 562–578).  Unlike the per-category transform, the `> 85` branch
has no `- 2`, no jitter is added, and there is no clamp. -/
def calibrateOverall (o : ℚ) : ℚ :=
  if 85 < o then (jsRound (o - (o - 85) * (7/10)) : ℚ)
  else if 75 < o then (jsRound (o - (o - 75) * calibrationStrength * 2) : ℚ)
  else if 65 < o then (jsRound (o - (o - 65) * calibrationStrength) : ℚ)
  else o

/-- `result.scores`: one optional numeric score per category plus the
overall score (`AnalysisResult` as consumed by `calibrateScores`).
A category absent from the result is `none`. -/
structure Scores where
  domainKnowledge : Option ℚ
  communication : Option ℚ
  responseQuality : Option ℚ
  experienceRelevance : Option ℚ
  culturalFit : Option ℚ
  emotionalIntelligence : Option ℚ
  overall : ℚ

/-- One random draw `Math.floor(Math.random() * 3) - 1` per category, in
the order the code's `categories` array visits them. -/
structure Jitter where
  dk : ℤ
  comm : ℤ
  rq : ℤ
  er : ℤ
  cf : ℤ
  ei : ℤ

/-- Contribution of one (possibly absent) calibrated score to
`totalWeightedScore` (lines 536–556). -/
def contribS (s : Option ℚ) (w : ℚ) : ℚ := (s.map (· * w)).getD 0

/-- Contribution of one (possibly absent) calibrated score to
`totalWeight` (lines 536–556). -/
def contribW (s : Option ℚ) (w : ℚ) : ℚ := if s.isSome then w else 0

/-- The first loop of `calibrateScores` (lines 493–522): every present
category score calibrated in place with its jitter draw; the overall
field is untouched by this loop. -/
def calibrateAllCats (raw : Scores) (jit : Jitter) : Scores where
  domainKnowledge := raw.domainKnowledge.map (fun s => calibrateCategory s jit.dk)
  communication := raw.communication.map (fun s => calibrateCategory s jit.comm)
  responseQuality := raw.responseQuality.map (fun s => calibrateCategory s jit.rq)
  experienceRelevance := raw.experienceRelevance.map (fun s => calibrateCategory s jit.er)
  culturalFit := raw.culturalFit.map (fun s => calibrateCategory s jit.cf)
  emotionalIntelligence := raw.emotionalIntelligence.map (fun s => calibrateCategory s jit.ei)
  overall := raw.overall

/-- `totalWeightedScore` accumulated over the present categories
(lines 533–556), weights 0.25 / 0.2 / 0.15 / 0.25 / 0.15 and 0.1 for
emotional intelligence. -/
def totalWeightedScore (sc : Scores) : ℚ :=
  contribS sc.domainKnowledge (25/100) + contribS sc.communication (20/100)
  + contribS sc.responseQuality (15/100) + contribS sc.experienceRelevance (25/100)
  + contribS sc.culturalFit (15/100) + contribS sc.emotionalIntelligence (10/100)

/-- `totalWeight` accumulated over the present categories (lines 533–556). -/
def totalWeight (sc : Scores) : ℚ :=
  contribW sc.domainKnowledge (25/100) + contribW sc.communication (20/100)
  + contribW sc.responseQuality (15/100) + contribW sc.experienceRelevance (25/100)
  + contribW sc.culturalFit (15/100) + contribW sc.emotionalIntelligence (10/100)

/-- `calibrateScores` (lines 479–582): calibrate every present category
score (with its jitter draw), recompute the weighted overall score,
round it, and compress it with `calibrateOverall`.  When no weighted
category is present the original overall is kept. -/
def calibrateScores (raw : Scores) (jit : Jitter) : Scores :=
  let c := calibrateAllCats raw jit
  { c with overall :=
      if 0 < totalWeight c then
        calibrateOverall ((jsRound (totalWeightedScore c / totalWeight c) : ℚ))
      else raw.overall }

/-- "absent, or present and at least `t`": the loops of
`updateQualificationStatus` flag a requirement as unmet only when the
category is present with a numeric score below the threshold. -/
def meets (s : Option ℚ) (t : ℚ) : Bool :=
  match s with
  | some v => decide (t ≤ v)
  | none => true

/-- `updateQualificationStatus` (lines 587–665): primary categories
(domain knowledge, experience relevance) must reach 65, they and the
other checked categories (communication, response quality, cultural fit)
must reach 50, and the overall score must reach 65.  Emotional
intelligence is never threshold-checked by the code. -/
def isQualified (sc : Scores) : Bool :=
  (meets sc.domainKnowledge 65 && meets sc.experienceRelevance 65)
  && (meets sc.domainKnowledge 50 && meets sc.experienceRelevance 50
      && meets sc.communication 50 && meets sc.responseQuality 50
      && meets sc.culturalFit 50)
  && decide (65 ≤ sc.overall)

/-- Modelled from the spec's words (§4.7, claim C4's reading): "qualified =
(every primary category ≥ primaryThreshold) AND (every category, primary
or not, ≥ minimumThreshold) AND (overall ≥ overallThreshold)", with
emotional intelligence among the categories checked against the minimum
threshold.  Kept separate from `isQualified`, which embeds the code. -/
def specQualified (sc : Scores) : Bool :=
  (meets sc.domainKnowledge 65 && meets sc.experienceRelevance 65)
  && (meets sc.domainKnowledge 50 && meets sc.experienceRelevance 50
      && meets sc.communication 50 && meets sc.responseQuality 50
      && meets sc.culturalFit 50 && meets sc.emotionalIntelligence 50)
  && decide (65 ≤ sc.overall)

/-- Raw scores of spec §8's anti-inflation test vector: every category 90,
emotional intelligence absent. -/
def rawAllNinety : Scores := ⟨some 90, some 90, some 90, some 90, some 90, none, 0⟩

/-- Raw scores with every category 100 (emotional intelligence absent). -/
def rawAllHundred : Scores := ⟨some 100, some 100, some 100, some 100, some 100, none, 0⟩

/-- The all-zero jitter draw. -/
def jitterZero : Jitter := ⟨0, 0, 0, 0, 0, 0⟩

/-- A jitter draw whose only nonzero component is +1 for domain knowledge. -/
def jitterDkOne : Jitter := ⟨1, 0, 0, 0, 0, 0⟩

/-! ## Arithmetic facts about `jsRound` and the clamp -/

lemma jsRound_mono {x y : ℚ} (h : x ≤ y) : jsRound x ≤ jsRound y :=
  Int.floor_le_floor (by linarith)

lemma jsRound_le {x : ℚ} {k : ℤ} (h : x + 1/2 < (k : ℚ) + 1) : (jsRound x : ℚ) ≤ (k : ℚ) := by
  unfold jsRound
  have hk : ⌊x + 1/2⌋ < k + 1 := Int.floor_lt.mpr (by push_cast; linarith)
  exact_mod_cast Int.lt_add_one_iff.mp hk

lemma le_jsRound {x : ℚ} {k : ℤ} (h : (k : ℚ) ≤ x + 1/2) : (k : ℚ) ≤ (jsRound x : ℚ) := by
  exact_mod_cast Int.le_floor.mpr h

lemma jsRound_trans {x y : ℚ} (k l : ℤ) (hx : x + 1/2 < (k : ℚ) + 1)
    (hkl : (k : ℚ) ≤ (l : ℚ)) (hy : (l : ℚ) ≤ y + 1/2) :
    (jsRound x : ℚ) ≤ (jsRound y : ℚ) :=
  le_trans (jsRound_le hx) (le_trans hkl (le_jsRound hy))

lemma jsRound_add_two (x : ℚ) : jsRound (x + 2) = jsRound x + 2 := by
  unfold jsRound
  rw [show x + 2 + 1/2 = (x + 1/2) + ((2 : ℤ) : ℚ) by push_cast; ring]
  exact Int.floor_add_int _ _

lemma clamp3095_mono {x y : ℚ} (h : x ≤ y) : clamp3095 x ≤ clamp3095 y :=
  max_le_max le_rfl (min_le_min le_rfl h)

lemma clamp3095_lb (x : ℚ) : 30 ≤ clamp3095 x := le_max_left _ _

lemma clamp3095_ub (x : ℚ) : clamp3095 x ≤ 95 := max_le (by norm_num) (min_le_left _ _)

/-- The pre-jitter category compression is monotone nondecreasing. -/
lemma calibrateCategoryPre_mono {s t : ℚ} (h : s ≤ t) :
    calibrateCategoryPre s ≤ calibrateCategoryPre t := by
  unfold calibrateCategoryPre
  simp only [calibrationStrength]
  split_ifs
  · exact Int.cast_le.mpr (jsRound_mono (by linarith))
  · linarith
  · linarith
  · linarith
  · exact jsRound_trans 82 83 (by push_cast; linarith) (by push_cast; norm_num)
      (by push_cast; linarith)
  · exact Int.cast_le.mpr (jsRound_mono (by linarith))
  · linarith
  · linarith
  · exact jsRound_trans 74 83 (by push_cast; linarith) (by push_cast; norm_num)
      (by push_cast; linarith)
  · exact jsRound_trans 74 75 (by push_cast; linarith) (by push_cast; norm_num)
      (by push_cast; linarith)
  · exact Int.cast_le.mpr (jsRound_mono (by linarith))
  · linarith
  · exact le_trans (by push_cast; linarith) (le_jsRound (k := 83) (by push_cast; linarith))
  · exact le_trans (by push_cast; linarith) (le_jsRound (k := 75) (by push_cast; linarith))
  · exact le_trans (by push_cast; linarith) (le_jsRound (k := 65) (by push_cast; linarith))
  · exact h

/-! ## Projection lemmas for `calibrateScores` -/

lemma calibrateScores_dk (raw : Scores) (jit : Jitter) :
    (calibrateScores raw jit).domainKnowledge
      = raw.domainKnowledge.map (fun s => calibrateCategory s jit.dk) := rfl

lemma calibrateScores_comm (raw : Scores) (jit : Jitter) :
    (calibrateScores raw jit).communication
      = raw.communication.map (fun s => calibrateCategory s jit.comm) := rfl

lemma calibrateScores_rq (raw : Scores) (jit : Jitter) :
    (calibrateScores raw jit).responseQuality
      = raw.responseQuality.map (fun s => calibrateCategory s jit.rq) := rfl

lemma calibrateScores_er (raw : Scores) (jit : Jitter) :
    (calibrateScores raw jit).experienceRelevance
      = raw.experienceRelevance.map (fun s => calibrateCategory s jit.er) := rfl

lemma calibrateScores_cf (raw : Scores) (jit : Jitter) :
    (calibrateScores raw jit).culturalFit
      = raw.culturalFit.map (fun s => calibrateCategory s jit.cf) := rfl

lemma calibrateScores_ei (raw : Scores) (jit : Jitter) :
    (calibrateScores raw jit).emotionalIntelligence
      = raw.emotionalIntelligence.map (fun s => calibrateCategory s jit.ei) := rfl

lemma calibrateScores_overall (raw : Scores) (jit : Jitter) :
    (calibrateScores raw jit).overall =
      if 0 < totalWeight (calibrateAllCats raw jit) then
        calibrateOverall ((jsRound (totalWeightedScore (calibrateAllCats raw jit)
          / totalWeight (calibrateAllCats raw jit)) : ℚ))
      else raw.overall := rfl

/-! ## Theorems about the calibration claims -/

/-- C1 — The per-category calibration is *not* independent of the random
draw: on the all-90 assessment, the draw 0 for domain knowledge yields a
calibrated 85, while the equally possible draw +1 yields 86.  Two runs of
`calibrateScores` on identical raw scores can therefore differ, because
line 516 adds `Math.floor(Math.random() * 3) - 1` to every category
score. -/
theorem calibrate_depends_on_random_draw :
    (calibrateScores rawAllNinety jitterZero).domainKnowledge = some 85
    ∧ (calibrateScores rawAllNinety jitterDkOne).domainKnowledge = some 86 := by
  refine ⟨?_, ?_⟩ <;>
  · rw [calibrateScores_dk]
    norm_num [rawAllNinety, jitterZero, jitterDkOne, calibrateCategory,
      calibrateCategoryPre, clamp3095, jsRound, calibrationStrength]

/-- C2 — As stated the claim is false: the calibrated category score is
not a function of the raw score alone.  Raw 70 under jitter draw +1
calibrates to 70 while the larger raw 71 under the equally possible draw
−1 calibrates to 69. -/
theorem calibrateCategory_jitter_non_monotone :
    (70 : ℚ) ≤ 71 ∧ calibrateCategory 70 1 = 70 ∧ calibrateCategory 71 (-1) = 69
    ∧ ¬ calibrateCategory 70 1 ≤ calibrateCategory 71 (-1) := by
  norm_num [calibrateCategory, calibrateCategoryPre, clamp3095, jsRound, calibrationStrength]

/-- C2 (amended) — For each fixed jitter draw `j`, the calibrated
category score is a monotone nondecreasing function of the raw score,
and for every raw score (even outside [0,100]) and every draw the output
lies within [30, 95]. -/
theorem calibrateCategory_mono_bounded (s t : ℚ) (j : ℤ) (h : s ≤ t) :
    calibrateCategory s j ≤ calibrateCategory t j
    ∧ 30 ≤ calibrateCategory s j ∧ calibrateCategory s j ≤ 95 :=
  ⟨clamp3095_mono (add_le_add_right (calibrateCategoryPre_mono h) _),
   clamp3095_lb _, clamp3095_ub _⟩

/-- Witness for C2's amended theorem at raw scores 60 ≤ 90, draw 0. -/
theorem calibrateCategory_mono_bounded_witness :
    calibrateCategory 60 0 ≤ calibrateCategory 90 0
    ∧ 30 ≤ calibrateCategory 60 0 ∧ calibrateCategory 60 0 ≤ 95 :=
  calibrateCategory_mono_bounded 60 90 0 (by norm_num)

/-- The all-100 assessment calibrates (under zero jitter) to 88 in every
category. -/
lemma calibrateAllCats_hundred :
    calibrateAllCats rawAllHundred jitterZero
      = ⟨some 88, some 88, some 88, some 88, some 88, none, 0⟩ := by
  simp only [calibrateAllCats, rawAllHundred, jitterZero, Option.map_some',
    Option.map_none', Scores.mk.injEq]
  norm_num [calibrateCategory, calibrateCategoryPre, clamp3095, jsRound, calibrationStrength]

/-- C3 — The transform applied to the overall score is *not* identical to
the category transform: at the reachable overall 88 (raw scores all 100,
zero jitter) the code produces 86, while the claimed transform — the
category tiers including the `- 2` of the `> 85` tier — produces 84. -/
theorem calibrateOverall_counterexample :
    (calibrateScores rawAllHundred jitterZero).overall = 86
    ∧ calibrateOverall 88 = 86 ∧ calibrateCategoryPre 88 = 84
    ∧ ¬ calibrateOverall 88 = calibrateCategoryPre 88 := by
  refine ⟨?_, ?_, ?_, ?_⟩
  · rw [calibrateScores_overall, calibrateAllCats_hundred]
    norm_num [totalWeight, totalWeightedScore, contribW, contribS, jsRound,
      calibrateOverall, calibrationStrength]
  · norm_num [calibrateOverall, jsRound, calibrationStrength]
  · norm_num [calibrateCategoryPre, jsRound, calibrationStrength]
  · norm_num [calibrateOverall, calibrateCategoryPre, jsRound, calibrationStrength]

/-- C3 (amended) — The overall transform agrees with the category
three-tier compression (pre-jitter, pre-clamp) for overall ≤ 85, and for
overall > 85 it produces exactly 2 more, because its first tier omits
the `- 2` subtraction; no clamp floor is applied. -/
theorem calibrateOverall_eq (o : ℚ) :
    calibrateOverall o =
      if 85 < o then calibrateCategoryPre o + 2 else calibrateCategoryPre o := by
  unfold calibrateOverall calibrateCategoryPre
  by_cases h : 85 < o
  · simp only [if_pos h]
    rw [show o - (o - 85) * (7/10) = (o - (o - 85) * (7/10) - 2) + 2 by ring,
      jsRound_add_two]
    push_cast
    ring
  · simp only [if_neg h]

/-- `meets` in terms of the underlying optional score. -/
lemma meets_iff (s : Option ℚ) (t : ℚ) :
    meets s t = true ↔ ∀ v, s = some v → t ≤ v := by
  cases s <;> simp [meets]

/-- C4 (amended) — The qualification decision is true iff every *present*
primary category scores at least 65, every *present* category among the
five standard ones (domain knowledge, experience relevance,
communication, response quality, cultural fit) scores at least 50, and
the overall score is at least 65.  The optional emotional-intelligence
category is not checked. -/
theorem isQualified_iff (sc : Scores) :
    isQualified sc = true ↔
      ((∀ v, sc.domainKnowledge = some v → 65 ≤ v)
        ∧ (∀ v, sc.experienceRelevance = some v → 65 ≤ v)
        ∧ (∀ v, sc.domainKnowledge = some v → 50 ≤ v)
        ∧ (∀ v, sc.experienceRelevance = some v → 50 ≤ v)
        ∧ (∀ v, sc.communication = some v → 50 ≤ v)
        ∧ (∀ v, sc.responseQuality = some v → 50 ≤ v)
        ∧ (∀ v, sc.culturalFit = some v → 50 ≤ v)
        ∧ 65 ≤ sc.overall) := by
  simp only [isQualified, Bool.and_eq_true, meets_iff, decide_eq_true_eq]
  tauto

/-- Raw scores reaching a calibrated assessment whose emotional
intelligence is 30: the five standard categories 70, emotional
intelligence 30. -/
def rawWithLowEI : Scores := ⟨some 70, some 70, some 70, some 70, some 70, some 30, 0⟩

/-- A jitter draw of +1 for the five standard categories, 0 for
emotional intelligence. -/
def jitterPlusOneStd : Jitter := ⟨1, 1, 1, 1, 1, 0⟩

/-- `rawWithLowEI` calibrates under `jitterPlusOneStd` to 70 in the five
standard categories and 30 in emotional intelligence. -/
lemma calibrateAllCats_lowEI :
    calibrateAllCats rawWithLowEI jitterPlusOneStd
      = ⟨some 70, some 70, some 70, some 70, some 70, some 30, 0⟩ := by
  simp only [calibrateAllCats, rawWithLowEI, jitterPlusOneStd, Option.map_some',
    Scores.mk.injEq]
  norm_num [calibrateCategory, calibrateCategoryPre, clamp3095, jsRound, calibrationStrength]

/-- C4 — As stated ("every category scores at least 50") the claim is
false: the calibrated assessment reached from `rawWithLowEI` under
`jitterPlusOneStd` has emotional intelligence 30 < 50, yet the code
qualifies the candidate; the spec-faithful decision `specQualified`
rejects it. -/
theorem isQualified_ignores_emotionalIntelligence :
    (calibrateScores rawWithLowEI jitterPlusOneStd).emotionalIntelligence = some 30
    ∧ isQualified (calibrateScores rawWithLowEI jitterPlusOneStd) = true
    ∧ specQualified (calibrateScores rawWithLowEI jitterPlusOneStd) = false := by
  have hdk : (calibrateScores rawWithLowEI jitterPlusOneStd).domainKnowledge = some 70 := by
    rw [calibrateScores_dk]
    norm_num [rawWithLowEI, jitterPlusOneStd, calibrateCategory, calibrateCategoryPre,
      clamp3095, jsRound, calibrationStrength]
  have hcomm : (calibrateScores rawWithLowEI jitterPlusOneStd).communication = some 70 := by
    rw [calibrateScores_comm]
    norm_num [rawWithLowEI, jitterPlusOneStd, calibrateCategory, calibrateCategoryPre,
      clamp3095, jsRound, calibrationStrength]
  have hrq : (calibrateScores rawWithLowEI jitterPlusOneStd).responseQuality = some 70 := by
    rw [calibrateScores_rq]
    norm_num [rawWithLowEI, jitterPlusOneStd, calibrateCategory, calibrateCategoryPre,
      clamp3095, jsRound, calibrationStrength]
  have her : (calibrateScores rawWithLowEI jitterPlusOneStd).experienceRelevance = some 70 := by
    rw [calibrateScores_er]
    norm_num [rawWithLowEI, jitterPlusOneStd, calibrateCategory, calibrateCategoryPre,
      clamp3095, jsRound, calibrationStrength]
  have hcf : (calibrateScores rawWithLowEI jitterPlusOneStd).culturalFit = some 70 := by
    rw [calibrateScores_cf]
    norm_num [rawWithLowEI, jitterPlusOneStd, calibrateCategory, calibrateCategoryPre,
      clamp3095, jsRound, calibrationStrength]
  have hei : (calibrateScores rawWithLowEI jitterPlusOneStd).emotionalIntelligence = some 30 := by
    rw [calibrateScores_ei]
    norm_num [rawWithLowEI, jitterPlusOneStd, calibrateCategory, calibrateCategoryPre,
      clamp3095, jsRound, calibrationStrength]
  have ho : (calibrateScores rawWithLowEI jitterPlusOneStd).overall = 66 := by
    rw [calibrateScores_overall, calibrateAllCats_lowEI]
    norm_num [totalWeight, totalWeightedScore, contribW, contribS, jsRound,
      calibrateOverall, calibrationStrength]
  refine ⟨hei, ?_, ?_⟩
  · simp only [isQualified, hdk, hcomm, hrq, her, hcf, ho]
    norm_num [meets]
  · simp only [specQualified, hdk, hcomm, hrq, her, hcf, hei, ho]
    norm_num [meets]

lemma le_jsRound' {x : ℚ} {k : ℤ} (h : (k : ℚ) ≤ x + 1/2) : k ≤ jsRound x :=
  Int.le_floor.mpr h

lemma jsRound_le' {x : ℚ} {k : ℤ} (h : x + 1/2 < (k : ℚ) + 1) : jsRound x ≤ k := by
  unfold jsRound
  exact Int.lt_add_one_iff.mp (Int.floor_lt.mpr (by push_cast; linarith))

lemma calibrateCategory_ninety {j : ℤ} (h1 : -1 ≤ j) (h2 : j ≤ 1) :
    calibrateCategory 90 j = 85 + (j : ℚ) := by
  have hp : calibrateCategoryPre 90 = 85 := by
    norm_num [calibrateCategoryPre, jsRound, calibrationStrength]
  have hj1 : (-1 : ℚ) ≤ (j : ℚ) := by exact_mod_cast h1
  have hj2 : (j : ℚ) ≤ 1 := by exact_mod_cast h2
  rw [calibrateCategory, hp, clamp3095, min_eq_right (by linarith), max_eq_right (by linarith)]

theorem calibrate_allNinety_qualified (j : Jitter)
    (h1 : -1 ≤ j.dk) (h2 : j.dk ≤ 1) (h3 : -1 ≤ j.comm) (h4 : j.comm ≤ 1)
    (h5 : -1 ≤ j.rq) (h6 : j.rq ≤ 1) (h7 : -1 ≤ j.er) (h8 : j.er ≤ 1)
    (h9 : -1 ≤ j.cf) (h10 : j.cf ≤ 1) :
    65 ≤ (calibrateScores rawAllNinety j).overall
    ∧ (calibrateScores rawAllNinety j).overall ≤ 85
    ∧ isQualified (calibrateScores rawAllNinety j) = true := by
  have hcats : calibrateAllCats rawAllNinety j
      = ⟨some (85 + (j.dk : ℚ)), some (85 + (j.comm : ℚ)), some (85 + (j.rq : ℚ)),
         some (85 + (j.er : ℚ)), some (85 + (j.cf : ℚ)), none, 0⟩ := by
    simp only [calibrateAllCats, rawAllNinety, Option.map_some', Option.map_none',
      Scores.mk.injEq, Option.some.injEq, and_true, true_and, and_assoc]
    exact ⟨calibrateCategory_ninety h1 h2, calibrateCategory_ninety h3 h4,
      calibrateCategory_ninety h5 h6, calibrateCategory_ninety h7 h8,
      calibrateCategory_ninety h9 h10⟩
  have htw : totalWeight (calibrateAllCats rawAllNinety j) = 1 := by
    rw [hcats]; norm_num [totalWeight, contribW]
  have htws : totalWeightedScore (calibrateAllCats rawAllNinety j)
      = 85 + ((j.dk : ℚ) * (25/100) + (j.comm : ℚ) * (20/100) + (j.rq : ℚ) * (15/100)
        + (j.er : ℚ) * (25/100) + (j.cf : ℚ) * (15/100)) := by
    rw [hcats]
    simp only [totalWeightedScore, contribS, Option.map_some', Option.getD_some,
      Option.map_none', Option.getD_none]
    ring
  have hdk' : (-1 : ℚ) ≤ (j.dk : ℚ) := by exact_mod_cast h1
  have hdk'' : (j.dk : ℚ) ≤ 1 := by exact_mod_cast h2
  have hcomm' : (-1 : ℚ) ≤ (j.comm : ℚ) := by exact_mod_cast h3
  have hcomm'' : (j.comm : ℚ) ≤ 1 := by exact_mod_cast h4
  have hrq' : (-1 : ℚ) ≤ (j.rq : ℚ) := by exact_mod_cast h5
  have hrq'' : (j.rq : ℚ) ≤ 1 := by exact_mod_cast h6
  have her' : (-1 : ℚ) ≤ (j.er : ℚ) := by exact_mod_cast h7
  have her'' : (j.er : ℚ) ≤ 1 := by exact_mod_cast h8
  have hcf' : (-1 : ℚ) ≤ (j.cf : ℚ) := by exact_mod_cast h9
  have hcf'' : (j.cf : ℚ) ≤ 1 := by exact_mod_cast h10
  have hWlb : (84 : ℚ) ≤ totalWeightedScore (calibrateAllCats rawAllNinety j) := by
    rw [htws]; linarith
  have hWub : totalWeightedScore (calibrateAllCats rawAllNinety j) ≤ 86 := by
    rw [htws]; linarith
  have hoall : (calibrateScores rawAllNinety j).overall
      = calibrateOverall ((jsRound (totalWeightedScore (calibrateAllCats rawAllNinety j)) : ℚ)) := by
    rw [calibrateScores_overall, htw, div_one]
    norm_num
  have ho84 : 84 ≤ jsRound (totalWeightedScore (calibrateAllCats rawAllNinety j)) :=
    le_jsRound' (by push_cast; linarith)
  have ho86 : jsRound (totalWeightedScore (calibrateAllCats rawAllNinety j)) ≤ 86 :=
    jsRound_le' (by push_cast; linarith)
  have hobounds : 65 ≤ (calibrateScores rawAllNinety j).overall
      ∧ (calibrateScores rawAllNinety j).overall ≤ 85 := by
    rcases (by omega : jsRound (totalWeightedScore (calibrateAllCats rawAllNinety j)) = 84
        ∨ jsRound (totalWeightedScore (calibrateAllCats rawAllNinety j)) = 85
        ∨ jsRound (totalWeightedScore (calibrateAllCats rawAllNinety j)) = 86) with h | h | h <;>
      rw [hoall, h] <;>
      norm_num [calibrateOverall, jsRound, calibrationStrength]
  have hdkf : (calibrateScores rawAllNinety j).domainKnowledge = some (85 + (j.dk : ℚ)) := by
    rw [calibrateScores_dk]
    simp only [rawAllNinety, Option.map_some', calibrateCategory_ninety h1 h2]
  have hcommf : (calibrateScores rawAllNinety j).communication = some (85 + (j.comm : ℚ)) := by
    rw [calibrateScores_comm]
    simp only [rawAllNinety, Option.map_some', calibrateCategory_ninety h3 h4]
  have hrqf : (calibrateScores rawAllNinety j).responseQuality = some (85 + (j.rq : ℚ)) := by
    rw [calibrateScores_rq]
    simp only [rawAllNinety, Option.map_some', calibrateCategory_ninety h5 h6]
  have herf : (calibrateScores rawAllNinety j).experienceRelevance = some (85 + (j.er : ℚ)) := by
    rw [calibrateScores_er]
    simp only [rawAllNinety, Option.map_some', calibrateCategory_ninety h7 h8]
  have hcff : (calibrateScores rawAllNinety j).culturalFit = some (85 + (j.cf : ℚ)) := by
    rw [calibrateScores_cf]
    simp only [rawAllNinety, Option.map_some', calibrateCategory_ninety h9 h10]
  refine ⟨hobounds.1, hobounds.2, ?_⟩
  simp only [isQualified, hdkf, hcommf, hrqf, herf, hcff, meets, Bool.and_eq_true,
    decide_eq_true_eq, and_assoc]
  exact ⟨by linarith, by linarith, by linarith, by linarith, by linarith, by linarith,
    by linarith, hobounds.1⟩

theorem calibrate_allNinety_qualified_witness :
    65 ≤ (calibrateScores rawAllNinety jitterZero).overall
    ∧ (calibrateScores rawAllNinety jitterZero).overall ≤ 85
    ∧ isQualified (calibrateScores rawAllNinety jitterZero) = true :=
  calibrate_allNinety_qualified jitterZero (by norm_num [jitterZero]) (by norm_num [jitterZero])
    (by norm_num [jitterZero]) (by norm_num [jitterZero]) (by norm_num [jitterZero])
    (by norm_num [jitterZero]) (by norm_num [jitterZero]) (by norm_num [jitterZero])
    (by norm_num [jitterZero]) (by norm_num [jitterZero])

/-! ## Trajectory smoothing (src/lib/ai/sentimentAnalysis.ts, lines 985–1017) -/

/-- One sample of the emotional journey:
`{ timestamp: number; emotion: string; intensity: number }`. -/
structure Sample where
  timestamp : ℚ
  emotion : String
  intensity : ℚ
deriving DecidableEq

/-- `Math.round((a + b) / 2)`: the smoother's neighbour mean. -/
def meanIntensity (a b : ℚ) : ℚ := (jsRound ((a + b) / 2) : ℚ)

/-- The body of one iteration of the smoothing loop (lines 993–1014) on
the interior sample `cur`, with `prev` the (already smoothed) left
neighbour and `next` the original right neighbour: if both neighbours
share a label that differs from `cur`'s, rewrite `cur`'s label and set
its intensity to the neighbours' mean; then, if the (possibly updated)
intensity differs from both neighbours' by more than 30, rewrite it to
the neighbours' mean. -/
def adjustSample (prev cur next : Sample) : Sample :=
  let m := meanIntensity prev.intensity next.intensity
  let e1 := if prev.emotion = next.emotion ∧ ¬ cur.emotion = prev.emotion
    then prev.emotion else cur.emotion
  let i1 := if prev.emotion = next.emotion ∧ ¬ cur.emotion = prev.emotion
    then m else cur.intensity
  let i2 := if 30 < jsAbs (i1 - prev.intensity) ∧ 30 < jsAbs (i1 - next.intensity)
    then m else i1
  ⟨cur.timestamp, e1, i2⟩

/-- The smoothing loop from index 1 to length − 2: `prev` carries the
already-smoothed left neighbour (the loop mutates the array in place, so
sample i−1 is read after its own update); the last element is returned
untouched. -/
def smoothGo (prev : Sample) : List Sample → List Sample
  | [] => []
  | [last] => [last]
  | cur :: next :: rest =>
    let cur2 := adjustSample prev cur next
    cur2 :: smoothGo cur2 (next :: rest)

/-- `smoothEmotionalJourney` (lines 985–1017): journeys of length ≤ 2
are returned unchanged; otherwise a single left-to-right pass adjusts
the interior samples. -/
def smoothEmotionalJourney (journey : List Sample) : List Sample :=
  match journey with
  | [] => []
  | [a] => [a]
  | [a, b] => [a, b]
  | a :: b :: c :: tl => a :: smoothGo a (b :: c :: tl)

/-- A second application of the loop body at the same position changes
nothing: the rewritten value is the neighbours' mean, which depends only
on the (unchanged) neighbours. -/
lemma adjust_idem (a b c : Sample) :
    adjustSample a (adjustSample a b c) c = adjustSample a b c := by
  simp only [adjustSample]
  split_ifs <;> simp_all

/-- C7 (amended) — the smoother is idempotent on journeys of length at
most 3 (shorter journeys pass through unchanged; with one interior
sample, the rewritten value depends only on the fixed endpoints). -/
theorem smooth_idempotent_short (l : List Sample) (h : l.length ≤ 3) :
    smoothEmotionalJourney (smoothEmotionalJourney l) = smoothEmotionalJourney l := by
  rcases l with _ | ⟨a, _ | ⟨b, _ | ⟨c, _ | ⟨d, tl⟩⟩⟩⟩
  · rfl
  · rfl
  · rfl
  · have h1 : smoothEmotionalJourney [a, b, c] = [a, adjustSample a b c, c] := rfl
    have h2 : smoothEmotionalJourney [a, adjustSample a b c, c]
        = [a, adjustSample a (adjustSample a b c) c, c] := rfl
    rw [h1, h2, adjust_idem]
  · simp only [List.length_cons] at h
    omega

/-- The journey of C7's counterexample. -/
def journeyFour : List Sample :=
  [⟨0, "confident", 0⟩, ⟨10000, "confident", 35⟩, ⟨20000, "nervous", 50⟩,
   ⟨30000, "confident", 100⟩]

/-- C7 — the smoother is *not* idempotent in general: on `journeyFour`
the first pass rewrites the relabelled third sample to intensity 68,
which turns the second sample into an intensity outlier that only the
second pass rewrites (to 34, which in turn drags the third down to 67). -/
theorem smooth_not_idempotent :
    smoothEmotionalJourney journeyFour
      = [⟨0, "confident", 0⟩, ⟨10000, "confident", 35⟩, ⟨20000, "confident", 68⟩,
         ⟨30000, "confident", 100⟩]
    ∧ smoothEmotionalJourney (smoothEmotionalJourney journeyFour)
      = [⟨0, "confident", 0⟩, ⟨10000, "confident", 34⟩, ⟨20000, "confident", 67⟩,
         ⟨30000, "confident", 100⟩]
    ∧ ¬ smoothEmotionalJourney (smoothEmotionalJourney journeyFour)
        = smoothEmotionalJourney journeyFour := by
  have e1 : smoothEmotionalJourney journeyFour
      = [⟨0, "confident", 0⟩, ⟨10000, "confident", 35⟩, ⟨20000, "confident", 68⟩,
         ⟨30000, "confident", 100⟩] := by
    have hnc : ¬ ("nervous" = "confident") := by decide
    have hcn : ¬ ("confident" = "nervous") := by decide
    norm_num [journeyFour, smoothEmotionalJourney, smoothGo, adjustSample, meanIntensity,
      jsRound, jsAbs, hnc, hcn]
  have e2 : smoothEmotionalJourney (smoothEmotionalJourney journeyFour)
      = [⟨0, "confident", 0⟩, ⟨10000, "confident", 34⟩, ⟨20000, "confident", 67⟩,
         ⟨30000, "confident", 100⟩] := by
    rw [e1]
    norm_num [smoothEmotionalJourney, smoothGo, adjustSample, meanIntensity,
      jsRound, jsAbs]
  refine ⟨e1, e2, ?_⟩
  rw [e2, e1]
  norm_num [Sample.mk.injEq]

/-- The three-sample trajectory of spec §8: positive(80), negative(20),
positive(80), timestamps 10 s apart. -/
def journeyPNP : List Sample :=
  [⟨0, "positive", 80⟩, ⟨10000, "negative", 20⟩, ⟨20000, "positive", 80⟩]

/-- Witness for C7's amended theorem at the concrete length-3 journey
`journeyPNP`. -/
theorem smooth_idempotent_short_witness :
    smoothEmotionalJourney (smoothEmotionalJourney journeyPNP)
      = smoothEmotionalJourney journeyPNP :=
  smooth_idempotent_short journeyPNP (by norm_num [journeyPNP])

/-- C8 — the middle sample is relabelled "positive", but its intensity
becomes 80 — the mean of its neighbours' intensities (80 and 80) — not
approximately 50 as the claim states (|80 − 50| = 30). -/
theorem smooth_pnp_counterexample :
    (smoothEmotionalJourney journeyPNP).get? 1 = some ⟨10000, "positive", 80⟩
    ∧ ¬ jsAbs (80 - 50) ≤ 20 := by
  have hnp : ¬ ("negative" = "positive") := by decide
  have hpn : ¬ ("positive" = "negative") := by decide
  constructor
  · norm_num [journeyPNP, smoothEmotionalJourney, smoothGo, adjustSample, meanIntensity,
      jsRound, jsAbs, hnp, hpn]
  · norm_num [jsAbs]

/-- C8 (amended) — smoothing `journeyPNP` rewrites the middle sample's
label to "positive" and sets its intensity to 80, the mean of its
neighbours' intensities. -/
theorem smooth_pnp :
    smoothEmotionalJourney journeyPNP
      = [⟨0, "positive", 80⟩, ⟨10000, "positive", 80⟩, ⟨20000, "positive", 80⟩]
    ∧ meanIntensity 80 80 = 80 := by
  have hnp : ¬ ("negative" = "positive") := by decide
  have hpn : ¬ ("positive" = "negative") := by decide
  constructor
  · norm_num [journeyPNP, smoothEmotionalJourney, smoothGo, adjustSample, meanIntensity,
      jsRound, jsAbs, hnp, hpn]
  · norm_num [meanIntensity, jsRound]

/-! ## Frame properties of the smoother (C10) -/

lemma smoothGo_length (p : Sample) (l : List Sample) :
    (smoothGo p l).length = l.length := by
  induction l generalizing p with
  | nil => rfl
  | cons x xs ih =>
    cases xs with
    | nil => rfl
    | cons y ys => simp [smoothGo, ih]

lemma smoothGo_timestamps (p : Sample) (l : List Sample) :
    (smoothGo p l).map Sample.timestamp = l.map Sample.timestamp := by
  induction l generalizing p with
  | nil => rfl
  | cons x xs ih =>
    cases xs with
    | nil => rfl
    | cons y ys =>
      have hts : (adjustSample p x y).timestamp = x.timestamp := rfl
      simp [smoothGo, ih, hts]

lemma smoothGo_getLast (p : Sample) (l : List Sample) :
    (smoothGo p l).getLast? = l.getLast? := by
  induction l generalizing p with
  | nil => rfl
  | cons x xs ih =>
    cases xs with
    | nil => rfl
    | cons y ys =>
      rw [smoothGo]
      obtain ⟨z, L, hL⟩ : ∃ z L, smoothGo (adjustSample p x y) (y :: ys) = z :: L := by
        cases ys with
        | nil => exact ⟨y, [], rfl⟩
        | cons w ws => exact ⟨_, _, rfl⟩
      rw [hL, List.getLast?_cons_cons, ← hL, ih, List.getLast?_cons_cons]

/-- C10 — the smoother returns a journey of the same length, never
modifies the first or the last sample, and never changes any sample's
timestamp: only labels and intensities of interior samples can differ
between input and output. -/
theorem smooth_frame (j : List Sample) :
    (smoothEmotionalJourney j).length = j.length
    ∧ (smoothEmotionalJourney j).head? = j.head?
    ∧ (smoothEmotionalJourney j).getLast? = j.getLast?
    ∧ (smoothEmotionalJourney j).map Sample.timestamp = j.map Sample.timestamp := by
  rcases j with _ | ⟨a, _ | ⟨b, _ | ⟨c, tl⟩⟩⟩
  · exact ⟨rfl, rfl, rfl, rfl⟩
  · exact ⟨rfl, rfl, rfl, rfl⟩
  · exact ⟨rfl, rfl, rfl, rfl⟩
  · refine ⟨?_, rfl, ?_, ?_⟩
    · show (a :: smoothGo a (b :: c :: tl)).length = (a :: b :: c :: tl).length
      simp [smoothGo_length]
    · show (a :: smoothGo a (b :: c :: tl)).getLast? = (a :: b :: c :: tl).getLast?
      obtain ⟨z, L, hL⟩ : ∃ z L, smoothGo a (b :: c :: tl) = z :: L := ⟨_, _, rfl⟩
      rw [hL, List.getLast?_cons_cons, ← hL, smoothGo_getLast, List.getLast?_cons_cons,
        List.getLast?_cons_cons, List.getLast?_cons_cons]
    · show (a :: smoothGo a (b :: c :: tl)).map Sample.timestamp
        = (a :: b :: c :: tl).map Sample.timestamp
      simp [smoothGo_timestamps]

/-! ## Shift detection (src/lib/ai/sentimentAnalysis.ts, lines 1471–1593) -/

/-- A chat message as the shift detector consumes it: only the role
(filtering for `"user"`) and content/timestamp matter here. -/
structure Message where
  role : String
  content : String
  timestamp : ℚ

/-- One entry of the `EmotionData` array produced by
`detectMessageEmotions`. -/
structure EmotionData where
  emotion : String
  intensity : ℚ
  messageIndex : ℕ
  timestamp : ℚ
deriving DecidableEq

/-- One endpoint (`from` / `to`) of an `EmotionalShift`. -/
structure ShiftEndpoint where
  emotion : String
  intensity : ℚ
  messageIndex : ℕ
deriving DecidableEq

/-- An `EmotionalShift` record (`from`, `to`, `type`, `timestamp`);
`from`/`to` are spelt `fromEp`/`toEp` because `from` is reserved. -/
structure EmotionalShift where
  fromEp : ShiftEndpoint
  toEp : ShiftEndpoint
  type : String
  timestamp : ℚ
deriving DecidableEq

/-- The `emotionCategories` table (lines 1484–1488), searched in
insertion order positive, neutral, negative, defaulting to `"neutral"`
(lines 1502–1514). -/
def emotionCategory (e : String) : String :=
  if e ∈ ["enthusiastic", "confident", "engaged"] then "positive"
  else if e ∈ ["thoughtful", "neutral"] then "neutral"
  else if e ∈ ["uncertain", "nervous", "defensive", "evasive", "disinterested"] then "negative"
  else "neutral"

/-- One iteration of the shift loop (lines 1497–1573) on the adjacent
pair (previous, current): record a shift when the emotion changed or the
intensity moved by at least 20, provided less than 600 seconds passed;
the shift type comes from the category change, or from the direction of
the intensity change within a shared positive/negative category. -/
def shiftPair (previous current : EmotionData) : Option EmotionalShift :=
  let timeDiff := (current.timestamp - previous.timestamp) / 1000
  if (¬ current.emotion = previous.emotion
        ∨ 20 ≤ jsAbs (current.intensity - previous.intensity))
      ∧ timeDiff < 600 then
    let prevCategory := emotionCategory previous.emotion
    let currCategory := emotionCategory current.emotion
    let shiftType :=
      if ¬ prevCategory = currCategory then
        if currCategory = "positive" then "positive"
        else if currCategory = "negative" then "negative"
        else "neutral"
      else if 20 ≤ jsAbs (current.intensity - previous.intensity) then
        if previous.intensity < current.intensity ∧ currCategory = "positive" then "positive"
        else if current.intensity < previous.intensity ∧ currCategory = "positive" then "negative"
        else if previous.intensity < current.intensity ∧ currCategory = "negative" then "negative"
        else if current.intensity < previous.intensity ∧ currCategory = "negative" then "positive"
        else "neutral"
      else "neutral"
    some ⟨⟨previous.emotion, previous.intensity, previous.messageIndex⟩,
          ⟨current.emotion, current.intensity, current.messageIndex⟩,
          shiftType, current.timestamp⟩
  else none

/-- The shift loop over all adjacent pairs (lines 1497–1573). -/
def shiftScan : List EmotionData → List EmotionalShift
  | [] => []
  | [_] => []
  | a :: b :: rest => (shiftPair a b).toList ++ shiftScan (b :: rest)

/-- The overall-significance verdict (lines 1576–1587): at least one
shift, and (more than one negative shift, or a negative shift with an
intensity move above 30, or more than two shifts in total). -/
def significantShifts (shifts : List EmotionalShift) : Bool :=
  decide (0 < shifts.length)
  && (decide (1 < (shifts.filter (fun s => s.type == "negative")).length)
      || shifts.any (fun s =>
          s.type == "negative" && decide (30 < jsAbs (s.toEp.intensity - s.fromEp.intensity)))
      || decide (2 < shifts.length))

/-- `detectEmotionalShifts` (lines 1471–1593): filter to user messages;
with fewer than 3 of them return no shifts and `significant = false`;
otherwise run the per-message emotion extraction and scan the result.
The emotion extraction `detectMessageEmotions` (lines 1598–1825, a
lexical keyword/regex scorer) is kept as the explicit function parameter
`detect`: the guard under verification fires before it is ever called,
so every theorem below holds for the real extractor as well. -/
def detectEmotionalShifts (detect : List Message → List EmotionData)
    (messages : List Message) : List EmotionalShift × Bool :=
  let candidateMessages := messages.filter (fun m => m.role == "user")
  if candidateMessages.length < 3 then ([], false)
  else
    let shifts := shiftScan (detect candidateMessages)
    (shifts, significantShifts shifts)

/-- C6 (amended) — for every emotion extractor and every input with
fewer than 3 user messages — so in particular fewer than 2, but also
exactly 2 — the shift detector returns an empty shift list and
`significant = false` without erroring. -/
theorem detectShifts_degenerate (detect : List Message → List EmotionData)
    (messages : List Message)
    (h : (messages.filter (fun m => m.role == "user")).length < 3) :
    detectEmotionalShifts detect messages = ([], false) := by
  unfold detectEmotionalShifts
  rw [if_pos h]

/-- Two user messages, 10 seconds apart. -/
def msgsTwo : List Message :=
  [⟨"user", "I am absolutely confident.", 0⟩, ⟨"user", "I am so worried, sorry.", 10000⟩]

/-- An emotion extraction returning a strong confident→nervous swing for
the two messages of `msgsTwo`. -/
def detectStub : List Message → List EmotionData :=
  fun _ => [⟨"confident", 80, 0, 0⟩, ⟨"nervous", 20, 1, 10000⟩]

/-- Witness for C6's amended theorem at a concrete degenerate input. -/
theorem detectShifts_degenerate_witness :
    detectEmotionalShifts detectStub msgsTwo = ([], false) :=
  detectShifts_degenerate detectStub msgsTwo (by decide)

/-- C6 — an input of exactly 2 user messages is *not* processed
normally: although the pair scan on its extracted emotions would report
a (negative) shift, the `< 3` guard discards the input as degenerate and
returns no shifts at all. -/
theorem detectShifts_two_messages_counterexample :
    (msgsTwo.filter (fun m => m.role == "user")).length = 2
    ∧ detectEmotionalShifts detectStub msgsTwo = ([], false)
    ∧ ¬ shiftScan (detectStub (msgsTwo.filter (fun m => m.role == "user"))) = [] := by
  refine ⟨by decide, ?_, ?_⟩
  · unfold detectEmotionalShifts
    rw [if_pos (by decide)]
  · have hcn : ¬ ("nervous" = "confident") := by decide
    norm_num [msgsTwo, detectStub, shiftScan, shiftPair, jsAbs, emotionCategory, hcn]

/-! ## Lexical bias scanning (src/lib/ai/biasDetection.ts, lines 199–347) -/

/-- `listPrefixOf pat l`: `pat` is a prefix of `l` (character lists). -/
def listPrefixOf : List Char → List Char → Bool
  | [], _ => true
  | _ :: _, [] => false
  | a :: as, b :: bs => a == b && listPrefixOf as bs

/-- `pat` occurs as a contiguous run somewhere in the character list. -/
def strIncludesAux (pat : List Char) : List Char → Bool
  | [] => listPrefixOf pat []
  | c :: rest => listPrefixOf pat (c :: rest) || strIncludesAux pat rest

/-- JavaScript `s.includes(pat)`: substring containment. -/
def strIncludes (s pat : String) : Bool := strIncludesAux pat.data s.data

/-- ASCII lower-casing of one character. -/
def asciiLower (c : Char) : Char :=
  if 'A' ≤ c ∧ c ≤ 'Z' then Char.ofNat (c.toNat + 32) else c

/-- JavaScript `text.toLowerCase()` for ASCII text (line 206). -/
def lowerString (s : String) : String := ⟨s.data.map asciiLower⟩

/-- One detected bias (`{ text, type, severity, suggestions }`). -/
structure BiasInstance where
  text : String
  type : String
  severity : String
  suggestions : List String
deriving DecidableEq

/-- The scores and findings of `mockBiasDetection`; the presentational
`overallAssessment` string is not modelled (no claim mentions it). -/
structure BiasDetectionResult where
  biasScore : ℕ
  detectedBiases : List BiasInstance
  fairnessScore : ℕ
deriving DecidableEq

/-- `genderTerms` (lines 210–229), in source order. -/
def genderTerms : List String :=
  ["he ", "him", "his", "she ", "her", "hers", "manpower", "mankind",
   "businessman", "businesswoman", "chairman", "manmade", "salesman",
   "saleswoman", "rockstar", "ninja", "guru", "strong man"]

/-- `ageTerms` (lines 244–255), in source order. -/
def ageTerms : List String :=
  ["young", "fresh", "energetic", "digital native", "recent graduate",
   "junior", "senior", "experienced", "over 5 years", "over 10 years"]

/-- The suggestion table of `getGenderNeutralSuggestion` (lines 297–324). -/
def genderSuggestionTable : List (String × List String) :=
  [("he ", ["they", "the person", "the individual", "the candidate"]),
   ("him", ["them", "the person", "the individual", "the candidate"]),
   ("his", ["their", "the person's", "the individual's", "the candidate's"]),
   ("she ", ["they", "the person", "the individual", "the candidate"]),
   ("her", ["them", "their", "the person", "the individual", "the candidate"]),
   ("hers", ["theirs", "the person's", "the individual's", "the candidate's"]),
   ("manpower", ["workforce", "staff", "personnel", "team members"]),
   ("mankind", ["humanity", "humankind", "people", "human beings"]),
   ("businessman", ["businessperson", "professional", "executive"]),
   ("businesswoman", ["businessperson", "professional", "executive"]),
   ("chairman", ["chairperson", "chair", "leader", "head"]),
   ("manmade", ["artificial", "synthetic", "manufactured", "constructed"]),
   ("salesman", ["salesperson", "sales representative", "sales associate"]),
   ("saleswoman", ["salesperson", "sales representative", "sales associate"]),
   ("rockstar", ["top performer", "high achiever", "outstanding contributor"]),
   ("ninja", ["expert", "specialist", "professional"]),
   ("guru", ["expert", "specialist", "authority", "leader"]),
   ("strong man", ["strong person", "physically strong individual",
                   "person with physical strength"])]

/-- `getGenderNeutralSuggestion` (lines 297–324): table lookup with a
generic fallback. -/
def getGenderNeutralSuggestion (term : String) : List String :=
  ((genderSuggestionTable.find? (fun p => p.1 == term)).map Prod.snd).getD
    ["Use gender-neutral language"]

/-- The suggestion table of `getAgeFairSuggestion` (lines 329–347). -/
def ageSuggestionTable : List (String × List String) :=
  [("young", ["motivated", "adaptable", "dynamic"]),
   ("fresh", ["new", "innovative", "creative"]),
   ("energetic", ["motivated", "dynamic", "enthusiastic"]),
   ("digital native", ["proficient with digital technology",
                       "experienced with digital tools"]),
   ("recent graduate", ["early-career professional", "entry-level candidate"]),
   ("junior", ["early-career", "entry-level", "developing professional"]),
   ("senior", ["experienced", "advanced", "seasoned professional"]),
   ("experienced", ["skilled", "knowledgeable", "proficient"]),
   ("over 5 years", ["significant experience", "established expertise"]),
   ("over 10 years", ["extensive experience", "comprehensive expertise"])]

/-- `getAgeFairSuggestion` (lines 329–347). -/
def getAgeFairSuggestion (term : String) : List String :=
  ((ageSuggestionTable.find? (fun p => p.1 == term)).map Prod.snd).getD
    ["Use age-neutral language"]

/-- `mockBiasDetection` (lines 199–292): lower-case the text; take the
*first* gender term found as a substring (at most one gender finding)
and the first age term likewise; `biasScore = min(count × 25, 80)`,
`fairnessScore = 100 − biasScore`.  The `context` argument only changes
logging and is omitted. -/
def mockBiasDetection (text : String) : BiasDetectionResult :=
  let textLower := lowerString text
  let genderBias := (genderTerms.find? (fun t => strIncludes textLower t)).map
    (fun t => (⟨t, "gender", "medium", getGenderNeutralSuggestion t⟩ : BiasInstance))
  let ageBias := (ageTerms.find? (fun t => strIncludes textLower t)).map
    (fun t => (⟨t, "age", "medium", getAgeFairSuggestion t⟩ : BiasInstance))
  let detectedBiases := genderBias.toList ++ ageBias.toList
  let biasScore := min (detectedBiases.length * 25) 80
  ⟨biasScore, detectedBiases, 100 - biasScore⟩

/-- The scan text of spec §8's bias test vector. -/
def sampleBiasText : String :=
  "The ideal candidate is a rockstar ninja who can be a real chairman of this team."

/-- C9 — the scan returns exactly *one* finding, not at least 2: the
first matching gender term is `"he "` (inside the word "The"), the scan
keeps at most one finding per category, and the text contains no age
term. -/
theorem mockBias_sample_counterexample :
    (mockBiasDetection sampleBiasText).detectedBiases.length = 1
    ∧ ¬ 2 ≤ (mockBiasDetection sampleBiasText).detectedBiases.length := by
  decide

/-- C9 (amended) — the scan returns exactly one finding: a gender
finding (matched text `"he "`) with a non-empty suggestion list, with
`biasScore = 25 > 0` and `fairnessScore = 75 = 100 − biasScore`. -/
theorem mockBias_sample :
    (mockBiasDetection sampleBiasText).detectedBiases
      = [⟨"he ", "gender", "medium",
          ["they", "the person", "the individual", "the candidate"]⟩]
    ∧ 0 < (mockBiasDetection sampleBiasText).biasScore
    ∧ (mockBiasDetection sampleBiasText).fairnessScore
      = 100 - (mockBiasDetection sampleBiasText).biasScore := by
  decide

end HJ
